import Mathlib

/-!
Verification of the D2D mode-selection radio simulator (directories
simulator/ and simulator_paper/ of the repository): a shallow embedding of
the configuration objects, the pseudo-random stream, the channel model,
entity mobility and the episode engine, together with theorems for the
specified properties.  Python floats are modelled by real numbers; numpy
random draws are modelled by an explicit stream state threaded through
every function that draws.
-/

noncomputable section

/-- Pseudo-random stream state.  The Python code consumes one global numpy
stream; we model it as typed sub-streams (uniform, standard normal,
exponential, integer), each with a cursor that advances by one per draw.
Values of np.random.rand lie in [0,1); we realise this by taking the
fractional part of an arbitrary underlying real stream, so every sequence
of values in [0,1) is representable and no side condition is needed. -/
structure RNG where
  uStream : Nat → ℝ
  nStream : Nat → ℝ
  eStream : Nat → ℝ
  iStream : Nat → Nat
  uIdx : Nat
  nIdx : Nat
  eIdx : Nat
  iIdx : Nat

/-- Model of np.random.rand(): one value in [0,1), cursor advances. -/
def RNG.rand (g : RNG) : ℝ × RNG :=
  (Int.fract (g.uStream g.uIdx), { g with uIdx := g.uIdx + 1 })

/-- Model of np.random.uniform(a, b): a + (b - a) * u with u in [0,1). -/
def RNG.uniform (a b : ℝ) (g : RNG) : ℝ × RNG :=
  let r := g.rand
  (a + (b - a) * r.1, r.2)

/-- Model of np.random.randn(): a standard-normal draw, an arbitrary real. -/
def RNG.randn (g : RNG) : ℝ × RNG :=
  (g.nStream g.nIdx, { g with nIdx := g.nIdx + 1 })

/-- Model of np.random.exponential(scale=1.0): a nonnegative real draw. -/
def RNG.exponential (g : RNG) : ℝ × RNG :=
  (|g.eStream g.eIdx|, { g with eIdx := g.eIdx + 1 })

/-- Model of np.random.randint(lo, hi): an integer in [lo, hi). -/
def RNG.randint (lo hi : Nat) (g : RNG) : Nat × RNG :=
  (lo + g.iStream g.iIdx % (hi - lo), { g with iIdx := g.iIdx + 1 })

/-- Configuration record: the union of the class attributes of
simulator/config.py (SimulationConfig) and simulator_paper/config.py
(PaperConfig).  Fields absent from one of the two Python classes are
filled with inert values in the corresponding instance below and are not
read by the functions translated from that variant. -/
structure Config where
  NUM_EPISODES : Nat
  STEPS_PER_EPISODE : Nat
  D2D_MAX_DIST_M : ℝ
  PROBABILITY_START_MOVING : ℝ
  USE_RANDOM_SHADOWING : Bool
  USE_RAYLEIGH_FADING : Bool
  INTERFERENCE_LOAD_FACTOR : ℝ
  BANDWIDTH_HZ : ℝ
  CARRIER_FREQ_MHZ : ℝ
  CELL_RADIUS_M : ℝ
  TX_POWER_BS_DBM : ℝ
  TX_POWER_D2D_DBM : ℝ
  PATH_LOSS_CELLULAR_A : ℝ
  PATH_LOSS_CELLULAR_B : ℝ
  PATH_LOSS_D2D_A : ℝ
  PATH_LOSS_D2D_B_FREQ : ℝ
  PATH_LOSS_D2D_C_DIST : ℝ
  SHADOWING_SIGMA_DB : ℝ
  SHADOWING_SIGMA_MIN : ℝ
  SHADOWING_SIGMA_MAX : ℝ
  TIME_STEP_S : ℝ
  NUM_INTERFERER : Nat
  SPEED_MIN : ℝ
  SPEED_MAX : ℝ
  SPEED : ℝ

/-- Thermal noise in dBm, computed in both config classes as
-174 + 10 * np.log10(BANDWIDTH_HZ). -/
def Config.NOISE_POWER_DBM (cfg : Config) : ℝ :=
  -174 + 10 * Real.logb 10 cfg.BANDWIDTH_HZ

/-- Helper to convert noise dBm to Watts (config.py get_noise_power_watts). -/
def Config.get_noise_power_watts (cfg : Config) : ℝ :=
  (10 : ℝ) ^ ((cfg.NOISE_POWER_DBM - 30) / 10)

/-- The proposed-simulator configuration values of simulator/config.py. -/
def SimulationConfig : Config where
  NUM_EPISODES := 50
  STEPS_PER_EPISODE := 100
  D2D_MAX_DIST_M := 50
  PROBABILITY_START_MOVING := 0.10
  USE_RANDOM_SHADOWING := false
  USE_RAYLEIGH_FADING := true
  INTERFERENCE_LOAD_FACTOR := 1.0
  BANDWIDTH_HZ := 10000000
  CARRIER_FREQ_MHZ := 700
  CELL_RADIUS_M := 500
  TX_POWER_BS_DBM := 46
  TX_POWER_D2D_DBM := 23
  PATH_LOSS_CELLULAR_A := 128.1
  PATH_LOSS_CELLULAR_B := 37.6
  PATH_LOSS_D2D_A := 32.45
  PATH_LOSS_D2D_B_FREQ := 20
  PATH_LOSS_D2D_C_DIST := 20
  SHADOWING_SIGMA_DB := 6
  SHADOWING_SIGMA_MIN := 4
  SHADOWING_SIGMA_MAX := 8
  TIME_STEP_S := 1
  NUM_INTERFERER := 20
  SPEED_MIN := 1
  SPEED_MAX := 10
  SPEED := 3

/-- The paper-replication configuration values of simulator_paper/config.py.
PaperConfig has no shadowing or fading attributes because the paper channel
model contains neither effect; the corresponding fields here are inert. -/
def PaperConfig : Config where
  NUM_EPISODES := 100
  STEPS_PER_EPISODE := 300
  D2D_MAX_DIST_M := 500
  PROBABILITY_START_MOVING := 1.00
  USE_RANDOM_SHADOWING := false
  USE_RAYLEIGH_FADING := false
  INTERFERENCE_LOAD_FACTOR := 0.1
  BANDWIDTH_HZ := 20000000
  CARRIER_FREQ_MHZ := 700
  CELL_RADIUS_M := 500
  TX_POWER_BS_DBM := 46
  TX_POWER_D2D_DBM := 23
  PATH_LOSS_CELLULAR_A := 128.1
  PATH_LOSS_CELLULAR_B := 37.6
  PATH_LOSS_D2D_A := 32.45
  PATH_LOSS_D2D_B_FREQ := 20
  PATH_LOSS_D2D_C_DIST := 20
  SHADOWING_SIGMA_DB := 6
  SHADOWING_SIGMA_MIN := 4
  SHADOWING_SIGMA_MAX := 8
  TIME_STEP_S := 1
  NUM_INTERFERER := 20
  SPEED_MIN := 3
  SPEED_MAX := 3
  SPEED := 3

namespace ChannelModel

/-- Cellular path loss (simulator/channel_model.py lines 6-15):
floor the distance at 1.0 m, convert to km, 128.1 + 37.6 * log10(d_km). -/
def calculate_path_loss_cellular (cfg : Config) (distance_m : ℝ) : ℝ :=
  let d := max distance_m 1.0
  let distance_km := d / 1000.0
  cfg.PATH_LOSS_CELLULAR_A + cfg.PATH_LOSS_CELLULAR_B * Real.logb 10 distance_km

/-- D2D path loss (simulator/channel_model.py lines 17-32):
floor the distance at 0.1 m, 32.45 + 20*log10(f_MHz) + 20*log10(d_km). -/
def calculate_path_loss_d2d (cfg : Config) (distance_m : ℝ) : ℝ :=
  let d := max distance_m 0.1
  let distance_km := d / 1000.0
  cfg.PATH_LOSS_D2D_A + cfg.PATH_LOSS_D2D_B_FREQ * Real.logb 10 cfg.CARRIER_FREQ_MHZ
    + cfg.PATH_LOSS_D2D_C_DIST * Real.logb 10 distance_km

/-- Shadowing in dB (simulator/channel_model.py lines 34-48): sigma is
either drawn uniformly from [SIGMA_MIN, SIGMA_MAX] or fixed, then
multiplied by a standard-normal draw.  A draw is always consumed. -/
def get_shadowing (cfg : Config) (g : RNG) : ℝ × RNG :=
  let s := if cfg.USE_RANDOM_SHADOWING then
             RNG.uniform cfg.SHADOWING_SIGMA_MIN cfg.SHADOWING_SIGMA_MAX g
           else (cfg.SHADOWING_SIGMA_DB, g)
  let z := RNG.randn s.2
  (s.1 * z.1, z.2)

/-- Rayleigh fading power gain (simulator/channel_model.py lines 50-59):
if USE_RAYLEIGH_FADING is off, return 1.0 consuming no draw; otherwise an
exponential(1) draw. -/
def get_rayleigh_fading_gain (cfg : Config) (g : RNG) : ℝ × RNG :=
  if cfg.USE_RAYLEIGH_FADING then RNG.exponential g else (1.0, g)

/-- Received power in Watts (simulator/channel_model.py lines 61-84):
path loss, then a shadowing draw, dBm-to-Watts conversion, then a fading
gain multiplication. -/
def compute_received_power (cfg : Config) (tx_power_dbm distance_m : ℝ)
    (is_d2d : Bool) (g : RNG) : ℝ × RNG :=
  let path_loss_db := if is_d2d then calculate_path_loss_d2d cfg distance_m
                      else calculate_path_loss_cellular cfg distance_m
  let sh := get_shadowing cfg g
  let rx_power_dbm := tx_power_dbm - path_loss_db + sh.1
  let rx_power_watts := (10 : ℝ) ^ ((rx_power_dbm - 30) / 10)
  let fg := get_rayleigh_fading_gain cfg sh.2
  (rx_power_watts * fg.1, fg.2)

end ChannelModel

namespace ChannelModelPaper

/-- Cellular path loss of simulator_paper/channel_model.py lines 5-16
(textually the same formula as the proposed variant). -/
def calculate_path_loss_cellular (cfg : Config) (distance_m : ℝ) : ℝ :=
  let d := max distance_m 1.0
  let distance_km := d / 1000.0
  cfg.PATH_LOSS_CELLULAR_A + cfg.PATH_LOSS_CELLULAR_B * Real.logb 10 distance_km

/-- D2D path loss of simulator_paper/channel_model.py lines 18-33. -/
def calculate_path_loss_d2d (cfg : Config) (distance_m : ℝ) : ℝ :=
  let d := max distance_m 0.1
  let distance_km := d / 1000.0
  cfg.PATH_LOSS_D2D_A + cfg.PATH_LOSS_D2D_B_FREQ * Real.logb 10 cfg.CARRIER_FREQ_MHZ
    + cfg.PATH_LOSS_D2D_C_DIST * Real.logb 10 distance_km

/-- Received power in Watts (simulator_paper/channel_model.py lines 35-51):
path loss and dBm-to-Watts conversion only — no shadowing term and no
fading gain, hence no random draw; the stream state g is passed through
untouched, mirroring that the Python body calls no random function. -/
def compute_received_power (cfg : Config) (tx_power_dbm distance_m : ℝ)
    (is_d2d : Bool) (g : RNG) : ℝ × RNG :=
  let path_loss_db := if is_d2d then calculate_path_loss_d2d cfg distance_m
                      else calculate_path_loss_cellular cfg distance_m
  let rx_power_dbm := tx_power_dbm - path_loss_db
  ((10 : ℝ) ^ ((rx_power_dbm - 30) / 10), g)

end ChannelModelPaper

/-- A fixed concrete stream state used by witnesses. -/
def gZero : RNG := ⟨fun _ => 0, fun _ => 0, fun _ => 0, fun _ => 0, 0, 0, 0, 0⟩

/-- A configuration equal to the proposed one but with Rayleigh fading
switched off, used to witness fading-disabled statements. -/
def fadingOffConfig : Config := { SimulationConfig with USE_RAYLEIGH_FADING := false }

/-- Euclidean distance between two planar points, the meaning of
np.linalg.norm(self.position - other.position) in entities.py. -/
def dist2 (p q : ℝ × ℝ) : ℝ := Real.sqrt ((p.1 - q.1) ^ 2 + (p.2 - q.2) ^ 2)

/-- Euclidean distance of a point from the origin. -/
def distFromOrigin (p : ℝ × ℝ) : ℝ := Real.sqrt (p.1 ^ 2 + p.2 ^ 2)

/-- Speed class passed to the UserEquipment constructor. -/
inductive SpeedType
  | pedestrian
  | vehicle
  | mixed

/-- Mobile user equipment state (simulator/entities.py lines 16-40). -/
structure UserEquipment where
  device_id : String
  position : ℝ × ℝ
  destination : ℝ × ℝ
  is_paused : Bool
  speed : ℝ
  tx_power_dbm : ℝ

/-- Base station (simulator/entities.py lines 4-13). -/
structure BaseStation where
  position : ℝ × ℝ
  tx_power_dbm : ℝ

def BaseStation.init (cfg : Config) : BaseStation :=
  { position := (0.0, 0.0), tx_power_dbm := cfg.TX_POWER_BS_DBM }

namespace UserEquipment

/-- Uniform random point in the cell disc (entities.py lines 41-46,
method _get_random_point_in_cell): radius = R * sqrt(rand), then an angle
2*pi*rand, in that draw order. -/
def get_random_point_in_cell (cfg : Config) (g : RNG) : (ℝ × ℝ) × RNG :=
  let r1 := g.rand
  let radius := cfg.CELL_RADIUS_M * Real.sqrt r1.1
  let r2 := r1.2.rand
  let angle := 2 * Real.pi * r2.1
  ((radius * Real.cos angle, radius * Real.sin angle), r2.2)

/-- UserEquipment constructor (entities.py lines 17-40): a start position
draw, a destination draw, paused flag false, and a class-dependent
uniform speed draw. -/
def init (cfg : Config) (device_id : String) (speed_type : SpeedType) (g : RNG) :
    UserEquipment × RNG :=
  let p := get_random_point_in_cell cfg g
  let q := get_random_point_in_cell cfg p.2
  let s :=
    match speed_type with
    | SpeedType.pedestrian => RNG.uniform 1 3 q.2
    | SpeedType.vehicle => RNG.uniform 3 10 q.2
    | SpeedType.mixed => RNG.uniform cfg.SPEED_MIN cfg.SPEED_MAX q.2
  ({ device_id := device_id, position := p.1, destination := q.1, is_paused := false,
     speed := s.1, tx_power_dbm := cfg.TX_POWER_D2D_DBM }, s.2)

/-- The CASE 2 (moving) body of entities.py move (lines 60-84): if the
step displacement speed*dt reaches the remaining distance, snap onto the
destination and pause; otherwise advance along the unit direction.  This
part of move consumes no random draw. -/
def moveBody (cfg : Config) (ue : UserEquipment) : UserEquipment :=
  let dt := cfg.TIME_STEP_S
  let dirx := ue.destination.1 - ue.position.1
  let diry := ue.destination.2 - ue.position.2
  let distance_to_dest := Real.sqrt (dirx ^ 2 + diry ^ 2)
  let step_distance := ue.speed * dt
  if distance_to_dest ≤ step_distance then
    { ue with position := ue.destination, is_paused := true }
  else
    { ue with position := (ue.position.1 + dirx / distance_to_dest * step_distance,
                           ue.position.2 + diry / distance_to_dest * step_distance) }

/-- Random-waypoint move (entities.py lines 48-84).  CASE 1: a paused UE
draws once; with probability PROBABILITY_START_MOVING it unpauses, draws a
fresh destination and falls through to the moving logic (as the Python
control flow does), otherwise it stays put.  CASE 2: a moving UE executes
the moveBody displacement. -/
def move (cfg : Config) (ue : UserEquipment) (g : RNG) : UserEquipment × RNG :=
  if ue.is_paused then
    let r := g.rand
    if r.1 < cfg.PROBABILITY_START_MOVING then
      let q := get_random_point_in_cell cfg r.2
      (moveBody cfg { ue with is_paused := false, destination := q.1 }, q.2)
    else (ue, r.2)
  else (moveBody cfg ue, g)

end UserEquipment

/-- A trivial concrete UE used by witness statements. -/
def ueZero : UserEquipment :=
  { device_id := "", position := (0, 0), destination := (3, 4), is_paused := false,
    speed := 1, tx_power_dbm := 23 }

/-- dBm conversion as the engine performs it: 10 * np.log10(w * 1000).
numpy's float log10 yields a finite number exactly when its argument is
positive (it is -inf at 0 and nan below); the emitted field is modelled as
an optional real that is some finite value in that case and none (a
non-finite float) otherwise. -/
def dbm_of_watts (w : ℝ) : Option ℝ :=
  if 0 < w * 1000 then some (10 * Real.logb 10 (w * 1000)) else none

/-- The per-step state dictionary emitted by step() (environment.py
lines 96-137), with the dBm-converted fields carrying the finiteness model
of dbm_of_watts. -/
structure StepRecord where
  timestamp : Nat
  episode_id : Nat
  tx_pos_x : ℝ
  tx_pos_y : ℝ
  rx_pos_x : ℝ
  rx_pos_y : ℝ
  distance_tx_rx : ℝ
  distance_bs_rx : ℝ
  tx_speed_mps : ℝ
  rx_speed_mps : ℝ
  tx_power_d2d_dbm : ℝ
  tx_power_bs_dbm : ℝ
  rx_power_d2d_dbm : Option ℝ
  rx_power_cell_dbm : Option ℝ
  interference_dbm : Option ℝ
  noise_dbm : Option ℝ
  sinr_d2d_db : ℝ
  sinr_cell_db : ℝ
  throughput_d2d_mbps : ℝ
  throughput_cell_mbps : ℝ
  optimal_mode : String

/-- Environment state shared by both simulator variants (environment.py
lines 7-16).  episode_id is optional, mirroring the dynamic attribute read
getattr(self, 'episode_id', 0). -/
structure D2DEnv where
  bs : BaseStation
  d2d_tx : UserEquipment
  d2d_rx : UserEquipment
  interferers : List UserEquipment
  time_step : Nat
  episode_id : Option Nat

namespace D2DEnvironment

/-- Interferer pool construction (environment.py line 34): UEs named
Int_i with the vehicle speed class, created left to right. -/
def mkInterferers (cfg : Config) : Nat → Nat → RNG → List UserEquipment × RNG
  | _, 0, g => ([], g)
  | i, Nat.succ n, g =>
    let u := UserEquipment.init cfg ("Int_" ++ toString i) SpeedType.vehicle g
    let rest := mkInterferers cfg (i + 1) n u.2
    (u.1 :: rest.1, rest.2)

/-- reset() of simulator/environment.py lines 18-36: create the D2D pair,
override the receiver position to transmitter + polar(radius, angle) with
angle uniform in [0, 2*pi) and radius uniform in [10, D2D_MAX_DIST_M), and
create between 10 and 20 interferers. -/
def reset (cfg : Config) (e : D2DEnv) (g : RNG) : D2DEnv × RNG :=
  let tx := UserEquipment.init cfg "Target_Tx" SpeedType.mixed g
  let rx0 := UserEquipment.init cfg "Target_Rx" SpeedType.mixed tx.2
  let a := RNG.uniform 0 (2 * Real.pi) rx0.2
  let r := RNG.uniform 10 cfg.D2D_MAX_DIST_M a.2
  let rx := { rx0.1 with
    position := (tx.1.position.1 + r.1 * Real.cos a.1,
                 tx.1.position.2 + r.1 * Real.sin a.1) }
  let n := RNG.randint 10 21 r.2
  let ints := mkInterferers cfg 0 n.1 n.2
  ({ e with time_step := 0, d2d_tx := tx.1, d2d_rx := rx, interferers := ints.1 }, ints.2)

/-- Sequential move of a list of UEs (the interferer loop of step()). -/
def moveAll (cfg : Config) : List UserEquipment → RNG → List UserEquipment × RNG
  | [], g => ([], g)
  | ue :: rest, g =>
    let u := UserEquipment.move cfg ue g
    let r := moveAll cfg rest u.2
    (u.1 :: r.1, r.2)

/-- The movement block of step() (environment.py lines 42-49): the step
counter increments and every entity — transmitter, receiver, each
interferer — moves, in that order, before anything else happens. -/
def movePhase (cfg : Config) (e : D2DEnv) (g : RNG) : D2DEnv × RNG :=
  let t := UserEquipment.move cfg e.d2d_tx g
  let r := UserEquipment.move cfg e.d2d_rx t.2
  let ms := moveAll cfg e.interferers r.2
  ({ e with time_step := e.time_step + 1, d2d_tx := t.1, d2d_rx := r.1,
            interferers := ms.1 }, ms.2)

/-- The interference loop of step() (environment.py lines 63-75): for each
interferer, a received-power draw toward the receiver with the D2D path
loss, scaled by the load factor rho and accumulated. -/
def total_interference_watts (cfg : Config) (rx_pos : ℝ × ℝ)
    (ints : List UserEquipment) (g : RNG) : ℝ × RNG :=
  ints.foldl (fun acc ue =>
    let d := dist2 ue.position rx_pos
    let raw := ChannelModel.compute_received_power cfg ue.tx_power_dbm d true acc.2
    (acc.1 + cfg.INTERFERENCE_LOAD_FACTOR * raw.1, raw.2)) ((0 : ℝ), g)

/-- The computation block of step() (environment.py lines 51-137), applied
to the post-movement environment: distances, received powers, aggregate
interference, noise, SINR, Shannon throughput, the optimal-mode label, and
the packed state record.  The environment itself is not modified here. -/
def computeRecord (cfg : Config) (e : D2DEnv) (g : RNG) :
    StepRecord × D2DEnv × RNG :=
  let dist_d2d := dist2 e.d2d_tx.position e.d2d_rx.position
  let dist_cellular := dist2 e.bs.position e.d2d_rx.position
  let sd := ChannelModel.compute_received_power cfg e.d2d_tx.tx_power_dbm dist_d2d true g
  let sc := ChannelModel.compute_received_power cfg e.bs.tx_power_dbm dist_cellular false sd.2
  let ti := total_interference_watts cfg e.d2d_rx.position e.interferers sc.2
  let noise_watts := cfg.get_noise_power_watts
  let sinr_d2d_linear := sd.1 / (ti.1 + noise_watts)
  let sinr_d2d_db := 10 * Real.logb 10 sinr_d2d_linear
  let sinr_cell_linear := sc.1 / (ti.1 + noise_watts)
  let sinr_cell_db := 10 * Real.logb 10 sinr_cell_linear
  let tput_d2d_mbps := cfg.BANDWIDTH_HZ * Real.logb 2 (1 + sinr_d2d_linear) / 1000000
  let tput_cell_mbps := cfg.BANDWIDTH_HZ * Real.logb 2 (1 + sinr_cell_linear) / 1000000
  let optimal_mode := if tput_cell_mbps ≤ tput_d2d_mbps then "D2D" else "Cellular"
  ({ timestamp := e.time_step,
     episode_id := e.episode_id.getD 0,
     tx_pos_x := e.d2d_tx.position.1,
     tx_pos_y := e.d2d_tx.position.2,
     rx_pos_x := e.d2d_rx.position.1,
     rx_pos_y := e.d2d_rx.position.2,
     distance_tx_rx := dist_d2d,
     distance_bs_rx := dist_cellular,
     tx_speed_mps := e.d2d_tx.speed,
     rx_speed_mps := e.d2d_rx.speed,
     tx_power_d2d_dbm := e.d2d_tx.tx_power_dbm,
     tx_power_bs_dbm := e.bs.tx_power_dbm,
     rx_power_d2d_dbm := dbm_of_watts sd.1,
     rx_power_cell_dbm := dbm_of_watts sc.1,
     interference_dbm := dbm_of_watts ti.1,
     noise_dbm := dbm_of_watts noise_watts,
     sinr_d2d_db := sinr_d2d_db,
     sinr_cell_db := sinr_cell_db,
     throughput_d2d_mbps := tput_d2d_mbps,
     throughput_cell_mbps := tput_cell_mbps,
     optimal_mode := optimal_mode }, e, ti.2)

/-- step() of simulator/environment.py lines 38-139: the movement block
runs first and the computation block runs on its result, exactly the
sequential order of the source body. -/
def step (cfg : Config) (e : D2DEnv) (g : RNG) : StepRecord × D2DEnv × RNG :=
  let m := movePhase cfg e g
  computeRecord cfg m.1 m.2

end D2DEnvironment

/-- Modelled from the spec: simulator_paper/entities.py is imported by
simulator_paper/environment.py but is not present under src/.  Per spec
sections 3, 4.1 and 9, paper-configuration user equipment is constructed
at a uniform point in the cell disc with a destination waypoint, not
paused, carrying the constant paper speed, and moves under the same
random-waypoint-with-pause model as the proposed variant. -/
def UserEquipmentPaper.init (cfg : Config) (device_id : String) (g : RNG) :
    UserEquipment × RNG :=
  let p := UserEquipment.get_random_point_in_cell cfg g
  let q := UserEquipment.get_random_point_in_cell cfg p.2
  ({ device_id := device_id, position := p.1, destination := q.1, is_paused := false,
     speed := cfg.SPEED, tx_power_dbm := cfg.TX_POWER_D2D_DBM }, q.2)

namespace D2DEnvironmentPaper

/-- Fixed-size interferer pool of the paper reset (environment.py paper
variant lines 34-41). -/
def mkInterferers (cfg : Config) : Nat → Nat → RNG → List UserEquipment × RNG
  | _, 0, g => ([], g)
  | i, Nat.succ n, g =>
    let u := UserEquipmentPaper.init cfg ("Int_" ++ toString i) g
    let rest := mkInterferers cfg (i + 1) n u.2
    (u.1 :: rest.1, rest.2)

/-- reset() of simulator_paper/environment.py lines 18-43: create the D2D
pair, re-draw the receiver position as an independent uniform point in the
cell, and create NUM_INTERFERER interferers.  The source then computes the
Tx-Rx distance and, when it exceeds D2D_MAX_DIST_M, executes a bare pass:
no constraint is enforced, which this translation mirrors by doing
nothing. -/
def reset (cfg : Config) (e : D2DEnv) (g : RNG) : D2DEnv × RNG :=
  let tx := UserEquipmentPaper.init cfg "Target_Tx" g
  let rx0 := UserEquipmentPaper.init cfg "Target_Rx" tx.2
  let p := UserEquipment.get_random_point_in_cell cfg rx0.2
  let rx := { rx0.1 with position := p.1 }
  let ints := mkInterferers cfg 0 cfg.NUM_INTERFERER p.2
  ({ e with time_step := 0, d2d_tx := tx.1, d2d_rx := rx, interferers := ints.1 }, ints.2)

/-- The movement block of the paper step() (lines 45-56), identical in
shape to the proposed variant; the mobility model itself is the
spec-modelled random-waypoint-with-pause of UserEquipment.move. -/
def movePhase (cfg : Config) (e : D2DEnv) (g : RNG) : D2DEnv × RNG :=
  let t := UserEquipment.move cfg e.d2d_tx g
  let r := UserEquipment.move cfg e.d2d_rx t.2
  let ms := D2DEnvironment.moveAll cfg e.interferers r.2
  ({ e with time_step := e.time_step + 1, d2d_tx := t.1, d2d_rx := r.1,
            interferers := ms.1 }, ms.2)

/-- The interference loop of the paper step() (lines 70-83), using the
draw-free paper channel model. -/
def total_interference_watts (cfg : Config) (rx_pos : ℝ × ℝ)
    (ints : List UserEquipment) (g : RNG) : ℝ × RNG :=
  ints.foldl (fun acc ue =>
    let d := dist2 ue.position rx_pos
    let raw := ChannelModelPaper.compute_received_power cfg ue.tx_power_dbm d true acc.2
    (acc.1 + cfg.INTERFERENCE_LOAD_FACTOR * raw.1, raw.2)) ((0 : ℝ), g)

/-- The computation block of the paper step() (lines 58-140), applied to
the post-movement environment. -/
def computeRecord (cfg : Config) (e : D2DEnv) (g : RNG) :
    StepRecord × D2DEnv × RNG :=
  let dist_d2d := dist2 e.d2d_tx.position e.d2d_rx.position
  let dist_cellular := dist2 e.bs.position e.d2d_rx.position
  let sd := ChannelModelPaper.compute_received_power cfg e.d2d_tx.tx_power_dbm dist_d2d true g
  let sc := ChannelModelPaper.compute_received_power cfg e.bs.tx_power_dbm dist_cellular false sd.2
  let ti := total_interference_watts cfg e.d2d_rx.position e.interferers sc.2
  let noise_watts := cfg.get_noise_power_watts
  let sinr_d2d_linear := sd.1 / (ti.1 + noise_watts)
  let sinr_d2d_db := 10 * Real.logb 10 sinr_d2d_linear
  let sinr_cell_linear := sc.1 / (ti.1 + noise_watts)
  let sinr_cell_db := 10 * Real.logb 10 sinr_cell_linear
  let tput_d2d_mbps := cfg.BANDWIDTH_HZ * Real.logb 2 (1 + sinr_d2d_linear) / 1000000
  let tput_cell_mbps := cfg.BANDWIDTH_HZ * Real.logb 2 (1 + sinr_cell_linear) / 1000000
  let optimal_mode := if tput_cell_mbps ≤ tput_d2d_mbps then "D2D" else "Cellular"
  ({ timestamp := e.time_step,
     episode_id := e.episode_id.getD 0,
     tx_pos_x := e.d2d_tx.position.1,
     tx_pos_y := e.d2d_tx.position.2,
     rx_pos_x := e.d2d_rx.position.1,
     rx_pos_y := e.d2d_rx.position.2,
     distance_tx_rx := dist_d2d,
     distance_bs_rx := dist_cellular,
     tx_speed_mps := e.d2d_tx.speed,
     rx_speed_mps := e.d2d_rx.speed,
     tx_power_d2d_dbm := e.d2d_tx.tx_power_dbm,
     tx_power_bs_dbm := e.bs.tx_power_dbm,
     rx_power_d2d_dbm := dbm_of_watts sd.1,
     rx_power_cell_dbm := dbm_of_watts sc.1,
     interference_dbm := dbm_of_watts ti.1,
     noise_dbm := dbm_of_watts noise_watts,
     sinr_d2d_db := sinr_d2d_db,
     sinr_cell_db := sinr_cell_db,
     throughput_d2d_mbps := tput_d2d_mbps,
     throughput_cell_mbps := tput_cell_mbps,
     optimal_mode := optimal_mode }, e, ti.2)

/-- step() of simulator_paper/environment.py lines 45-142: movement block
first, computation block on its result. -/
def step (cfg : Config) (e : D2DEnv) (g : RNG) : StepRecord × D2DEnv × RNG :=
  let m := movePhase cfg e g
  computeRecord cfg m.1 m.2

end D2DEnvironmentPaper

/-- A trivial concrete environment used by witnesses and counterexamples. -/
def envZero : D2DEnv :=
  { bs := { position := (0, 0), tx_power_dbm := 46 },
    d2d_tx := ueZero, d2d_rx := ueZero, interferers := [], time_step := 0,
    episode_id := none }

/-- A configuration equal to the proposed one but with the interference
load factor set to 0, used to witness the rho = 0 statements. -/
def rhoZeroConfig : Config := { SimulationConfig with INTERFERENCE_LOAD_FACTOR := 0 }

/-- Concrete stream for the paper-reset distance demonstration: the
transmitter lands at (-450, 0) and the receiver override at (450, 0). -/
def gC4 : RNG :=
  ⟨fun n => if n = 0 then 0.81 else if n = 1 then 0.5 else if n = 8 then 0.81 else 0,
   fun _ => 0, fun _ => 0, fun _ => 0, 0, 0, 0, 0⟩

/-- Concrete stream for the C2 counterexample: the transmitter lands at
(495, 0) and the receiver override adds an offset of 30 m at bearing 0,
placing the receiver at (525, 0), outside the 500 m cell. -/
def gC2 : RNG :=
  ⟨fun n => if n = 0 then 0.9801 else if n = 11 then 0.5 else 0,
   fun _ => 0, fun _ => 0, fun _ => 0, 0, 0, 0, 0⟩

/-- Per-UE mobility invariant: the position stays within distance C of the
origin, the destination waypoint stays within the cell radius, and the
speed is nonnegative. -/
def UEInv (C : ℝ) (ue : UserEquipment) : Prop :=
  distFromOrigin ue.position ≤ C ∧
  distFromOrigin ue.destination ≤ SimulationConfig.CELL_RADIUS_M ∧
  0 ≤ ue.speed

/-- Amended environment invariant for the proposed configuration: the base
station, the transmitter and every interferer stay within CELL_RADIUS_M of
the origin, while the D2D receiver — whose reset position is the
transmitter position plus an offset of up to D2D_MAX_DIST_M — stays within
CELL_RADIUS_M + D2D_MAX_DIST_M. -/
def EnvInvAmended (e : D2DEnv) : Prop :=
  distFromOrigin e.bs.position ≤ SimulationConfig.CELL_RADIUS_M ∧
  UEInv SimulationConfig.CELL_RADIUS_M e.d2d_tx ∧
  UEInv (SimulationConfig.CELL_RADIUS_M + SimulationConfig.D2D_MAX_DIST_M) e.d2d_rx ∧
  ∀ ue ∈ e.interferers, UEInv SimulationConfig.CELL_RADIUS_M ue

/-!  Theorems.  -/

/-- C1: with fading disabled and shadowing disabled — the paper-replication
channel model, whose compute_received_power contains neither effect and
draws no random value — received power is a pure deterministic function of
transmit power and distance: its value does not depend on the state of the
pseudo-random stream, so any two calls with identical inputs return
identical results. -/
theorem C1_received_power_deterministic (cfg : Config) (tx d : ℝ) (b : Bool)
    (g1 g2 : RNG) :
    (ChannelModelPaper.compute_received_power cfg tx d b g1).1 =
    (ChannelModelPaper.compute_received_power cfg tx d b g2).1 := rfl

/-- C3: a disabled channel component consumes no randomness.  When fading
is disabled the fading gain is exactly 1.0 and the stream state is returned
unchanged; the shadowing-free (paper) compute_received_power returns the
stream state unchanged; and in the proposed compute_received_power with
fading disabled, the final stream state is exactly the state after the
shadowing draw — the disabled fading component left it untouched. -/
theorem C3_disabled_component_consumes_no_draw (cfg : Config) (tx d : ℝ)
    (b : Bool) (g : RNG) :
    (cfg.USE_RAYLEIGH_FADING = false →
      ChannelModel.get_rayleigh_fading_gain cfg g = (1.0, g)) ∧
    (ChannelModelPaper.compute_received_power cfg tx d b g).2 = g ∧
    (cfg.USE_RAYLEIGH_FADING = false →
      (ChannelModel.compute_received_power cfg tx d b g).2 =
      (ChannelModel.get_shadowing cfg g).2) := by
  refine ⟨fun h => ?_, rfl, fun h => ?_⟩
  · simp [ChannelModel.get_rayleigh_fading_gain, h]
  · simp [ChannelModel.compute_received_power, ChannelModel.get_rayleigh_fading_gain, h]

theorem C3_witness :
    fadingOffConfig.USE_RAYLEIGH_FADING = false ∧
    ChannelModel.get_rayleigh_fading_gain fadingOffConfig gZero = (1.0, gZero) ∧
    (ChannelModelPaper.compute_received_power fadingOffConfig 23 50 true gZero).2 = gZero ∧
    (ChannelModel.compute_received_power fadingOffConfig 23 50 true gZero).2 =
      (ChannelModel.get_shadowing fadingOffConfig gZero).2 :=
  ⟨rfl, (C3_disabled_component_consumes_no_draw fadingOffConfig 23 50 true gZero).1 rfl,
    (C3_disabled_component_consumes_no_draw fadingOffConfig 23 50 true gZero).2.1,
    (C3_disabled_component_consumes_no_draw fadingOffConfig 23 50 true gZero).2.2 rfl⟩

/-- C9: the cellular path-loss function is strictly increasing on distances
d ≥ 1.0 m, and below the 1.0 m floor it is constant (equal to its value at
the floor), hence not increasing there. -/
theorem C9_path_loss_cellular_strictly_increasing :
    (∀ d1 d2 : ℝ, 1 ≤ d1 → d1 < d2 →
      ChannelModel.calculate_path_loss_cellular SimulationConfig d1 <
      ChannelModel.calculate_path_loss_cellular SimulationConfig d2) ∧
    (∀ d : ℝ, d ≤ 1 →
      ChannelModel.calculate_path_loss_cellular SimulationConfig d =
      ChannelModel.calculate_path_loss_cellular SimulationConfig 1) := by
  constructor
  · intro d1 d2 h1 h12
    have hm1 : max d1 1.0 = d1 := max_eq_left (by exact_mod_cast le_trans (by norm_num) h1)
    have hm2 : max d2 1.0 = d2 := max_eq_left (by nlinarith)
    simp only [ChannelModel.calculate_path_loss_cellular, hm1, hm2, SimulationConfig]
    have hlog : Real.logb 10 (d1 / 1000.0) < Real.logb 10 (d2 / 1000.0) := by
      apply Real.logb_lt_logb (by norm_num)
      · positivity
      · linarith
    nlinarith
  · intro d hd
    have hm : max d 1.0 = 1.0 := max_eq_right (by norm_num [hd])
    have hm1 : max (1 : ℝ) 1.0 = 1.0 := max_eq_right (by norm_num)
    simp only [ChannelModel.calculate_path_loss_cellular, hm, hm1]

theorem C9_witness :
    ((1 : ℝ) ≤ 2 ∧ (2 : ℝ) < 3 ∧
      ChannelModel.calculate_path_loss_cellular SimulationConfig 2 <
      ChannelModel.calculate_path_loss_cellular SimulationConfig 3) ∧
    ((1 / 2 : ℝ) ≤ 1 ∧
      ChannelModel.calculate_path_loss_cellular SimulationConfig (1 / 2) =
      ChannelModel.calculate_path_loss_cellular SimulationConfig 1) :=
  ⟨⟨by norm_num, by norm_num,
    C9_path_loss_cellular_strictly_increasing.1 2 3 (by norm_num) (by norm_num)⟩,
   ⟨by norm_num,
    C9_path_loss_cellular_strictly_increasing.2 (1 / 2) (by norm_num)⟩⟩

/-- C6: one move() call on a moving UE (is_paused = false), with step
displacement speed × time-step.  If the displacement reaches the remaining
distance to the destination, the position is set exactly to the
destination and the UE transitions to Paused; this includes remaining
distance exactly 0 (destination already reached) when the displacement is
nonnegative, and no division is evaluated on that path.  Otherwise the
position advances by the displacement along the unit direction to the
destination and the UE remains Moving. -/
theorem C6_move_snap_or_advance (cfg : Config) (ue : UserEquipment) (g : RNG)
    (hmoving : ue.is_paused = false) :
    (Real.sqrt ((ue.destination.1 - ue.position.1) ^ 2 +
        (ue.destination.2 - ue.position.2) ^ 2) ≤ ue.speed * cfg.TIME_STEP_S →
      (UserEquipment.move cfg ue g).1.position = ue.destination ∧
      (UserEquipment.move cfg ue g).1.is_paused = true) ∧
    (ue.speed * cfg.TIME_STEP_S <
        Real.sqrt ((ue.destination.1 - ue.position.1) ^ 2 +
          (ue.destination.2 - ue.position.2) ^ 2) →
      (UserEquipment.move cfg ue g).1.position =
        (ue.position.1 + (ue.destination.1 - ue.position.1) /
            Real.sqrt ((ue.destination.1 - ue.position.1) ^ 2 +
              (ue.destination.2 - ue.position.2) ^ 2) * (ue.speed * cfg.TIME_STEP_S),
         ue.position.2 + (ue.destination.2 - ue.position.2) /
            Real.sqrt ((ue.destination.1 - ue.position.1) ^ 2 +
              (ue.destination.2 - ue.position.2) ^ 2) * (ue.speed * cfg.TIME_STEP_S)) ∧
      (UserEquipment.move cfg ue g).1.is_paused = false) ∧
    (ue.destination = ue.position → 0 ≤ ue.speed * cfg.TIME_STEP_S →
      (UserEquipment.move cfg ue g).1.position = ue.destination ∧
      (UserEquipment.move cfg ue g).1.is_paused = true ∧
      (UserEquipment.move cfg ue g).1.position = ue.position) := by
  simp only [UserEquipment.move, hmoving, Bool.false_eq_true, if_false]
  refine ⟨fun hle => ?_, fun hlt => ?_, fun hdest hstep => ?_⟩
  · simp [UserEquipment.moveBody, if_pos hle]
  · simp [UserEquipment.moveBody, if_neg (not_le.2 hlt), hmoving]
  · refine ⟨?_, ?_, ?_⟩ <;>
      simp [UserEquipment.moveBody, hdest, Real.sqrt_zero, hstep]

theorem C6_witness :
    ueZero.is_paused = false ∧
    ((Real.sqrt ((ueZero.destination.1 - ueZero.position.1) ^ 2 +
        (ueZero.destination.2 - ueZero.position.2) ^ 2) ≤
          ueZero.speed * SimulationConfig.TIME_STEP_S →
      (UserEquipment.move SimulationConfig ueZero gZero).1.position = ueZero.destination ∧
      (UserEquipment.move SimulationConfig ueZero gZero).1.is_paused = true) ∧
    (ueZero.speed * SimulationConfig.TIME_STEP_S <
        Real.sqrt ((ueZero.destination.1 - ueZero.position.1) ^ 2 +
          (ueZero.destination.2 - ueZero.position.2) ^ 2) →
      (UserEquipment.move SimulationConfig ueZero gZero).1.position =
        (ueZero.position.1 + (ueZero.destination.1 - ueZero.position.1) /
            Real.sqrt ((ueZero.destination.1 - ueZero.position.1) ^ 2 +
              (ueZero.destination.2 - ueZero.position.2) ^ 2) *
            (ueZero.speed * SimulationConfig.TIME_STEP_S),
         ueZero.position.2 + (ueZero.destination.2 - ueZero.position.2) /
            Real.sqrt ((ueZero.destination.1 - ueZero.position.1) ^ 2 +
              (ueZero.destination.2 - ueZero.position.2) ^ 2) *
            (ueZero.speed * SimulationConfig.TIME_STEP_S)) ∧
      (UserEquipment.move SimulationConfig ueZero gZero).1.is_paused = false) ∧
    (ueZero.destination = ueZero.position → 0 ≤ ueZero.speed * SimulationConfig.TIME_STEP_S →
      (UserEquipment.move SimulationConfig ueZero gZero).1.position = ueZero.destination ∧
      (UserEquipment.move SimulationConfig ueZero gZero).1.is_paused = true ∧
      (UserEquipment.move SimulationConfig ueZero gZero).1.position = ueZero.position)) :=
  ⟨rfl, C6_move_snap_or_advance SimulationConfig ueZero gZero rfl⟩

/-- Helper: behaviour of the optimal-mode conditional of step(). -/
theorem optimal_mode_if_cases (c d : ℝ) :
    ((if c ≤ d then "D2D" else "Cellular") = "D2D" ↔ c ≤ d) ∧
    ((if c ≤ d then "D2D" else "Cellular") = "D2D" ∨
      (if c ≤ d then "D2D" else "Cellular") = "Cellular") ∧
    (d = c → (if c ≤ d then "D2D" else "Cellular") = "D2D") := by
  by_cases h : c ≤ d
  · simp [h]
  · refine ⟨?_, ?_, ?_⟩
    · simp only [if_neg h]
      constructor
      · intro hc
        exact absurd hc (by decide)
      · intro hc
        exact absurd hc h
    · simp [h]
    · intro hdc
      exact absurd (le_of_eq hdc.symm) h

/-- C7: in every emitted StepRecord, of either simulator variant, the
optimal_mode label equals "D2D" exactly when the D2D throughput is at
least the cellular throughput; the label is always one of "D2D" or
"Cellular"; and on exact equality of the two throughputs the label is
"D2D". -/
theorem C7_optimal_mode_label (cfg : Config) (e : D2DEnv) (g : RNG) :
    (((D2DEnvironment.step cfg e g).1.optimal_mode = "D2D" ↔
      (D2DEnvironment.step cfg e g).1.throughput_cell_mbps ≤
        (D2DEnvironment.step cfg e g).1.throughput_d2d_mbps) ∧
     ((D2DEnvironment.step cfg e g).1.optimal_mode = "D2D" ∨
      (D2DEnvironment.step cfg e g).1.optimal_mode = "Cellular") ∧
     ((D2DEnvironment.step cfg e g).1.throughput_d2d_mbps =
        (D2DEnvironment.step cfg e g).1.throughput_cell_mbps →
      (D2DEnvironment.step cfg e g).1.optimal_mode = "D2D")) ∧
    (((D2DEnvironmentPaper.step cfg e g).1.optimal_mode = "D2D" ↔
      (D2DEnvironmentPaper.step cfg e g).1.throughput_cell_mbps ≤
        (D2DEnvironmentPaper.step cfg e g).1.throughput_d2d_mbps) ∧
     ((D2DEnvironmentPaper.step cfg e g).1.optimal_mode = "D2D" ∨
      (D2DEnvironmentPaper.step cfg e g).1.optimal_mode = "Cellular") ∧
     ((D2DEnvironmentPaper.step cfg e g).1.throughput_d2d_mbps =
        (D2DEnvironmentPaper.step cfg e g).1.throughput_cell_mbps →
      (D2DEnvironmentPaper.step cfg e g).1.optimal_mode = "D2D")) := by
  constructor
  · simp only [D2DEnvironment.step, D2DEnvironment.computeRecord]
    exact optimal_mode_if_cases _ _
  · simp only [D2DEnvironmentPaper.step, D2DEnvironmentPaper.computeRecord]
    exact optimal_mode_if_cases _ _

theorem C7_witness :
    ((D2DEnvironment.step SimulationConfig envZero gZero).1.optimal_mode = "D2D" ↔
      (D2DEnvironment.step SimulationConfig envZero gZero).1.throughput_cell_mbps ≤
        (D2DEnvironment.step SimulationConfig envZero gZero).1.throughput_d2d_mbps) ∧
    ((D2DEnvironment.step SimulationConfig envZero gZero).1.optimal_mode = "D2D" ∨
      (D2DEnvironment.step SimulationConfig envZero gZero).1.optimal_mode = "Cellular") :=
  ⟨(C7_optimal_mode_label SimulationConfig envZero gZero).1.1,
   (C7_optimal_mode_label SimulationConfig envZero gZero).1.2.1⟩

/-- Helper: the interference accumulation loop leaves the accumulator
unchanged when the load factor is 0, for any per-interferer received-power
function. -/
theorem interference_foldl_rho_zero (r : ℝ) (h : r = 0) (rx_pos : ℝ × ℝ)
    (crp : ℝ → ℝ → Bool → RNG → ℝ × RNG) :
    ∀ (l : List UserEquipment) (a : ℝ) (g : RNG),
      (List.foldl (fun acc ue =>
        let d := dist2 ue.position rx_pos
        let raw := crp ue.tx_power_dbm d true acc.2
        (acc.1 + r * raw.1, raw.2)) (a, g) l).1 = a := by
  subst h
  intro l
  induction l with
  | nil => intro a g; rfl
  | cons ue rest ih =>
    intro a g
    rw [List.foldl_cons]
    simpa using ih a ((crp ue.tx_power_dbm (dist2 ue.position rx_pos) true g).2)

/-- Helper: the proposed-variant interference total is 0 when rho = 0. -/
theorem tiw_rho_zero (cfg : Config) (h : cfg.INTERFERENCE_LOAD_FACTOR = 0)
    (rx_pos : ℝ × ℝ) (ints : List UserEquipment) (g : RNG) :
    (D2DEnvironment.total_interference_watts cfg rx_pos ints g).1 = 0 := by
  have := interference_foldl_rho_zero cfg.INTERFERENCE_LOAD_FACTOR h rx_pos
    (ChannelModel.compute_received_power cfg) ints 0 g
  simpa [D2DEnvironment.total_interference_watts] using this

/-- Helper: the paper-variant interference total is 0 when rho = 0. -/
theorem tiw_paper_rho_zero (cfg : Config) (h : cfg.INTERFERENCE_LOAD_FACTOR = 0)
    (rx_pos : ℝ × ℝ) (ints : List UserEquipment) (g : RNG) :
    (D2DEnvironmentPaper.total_interference_watts cfg rx_pos ints g).1 = 0 := by
  have := interference_foldl_rho_zero cfg.INTERFERENCE_LOAD_FACTOR h rx_pos
    (ChannelModelPaper.compute_received_power cfg) ints 0 g
  simpa [D2DEnvironmentPaper.total_interference_watts] using this

/-- C8: with INTERFERENCE_LOAD_FACTOR = 0, the aggregate interference power
computed by step() — the loop accumulating rho times each interferer
received power — is exactly 0 watts, in both simulator variants, for every
receiver position, every interferer placement and every stream state. -/
theorem C8_interference_exactly_zero (cfg : Config)
    (h : cfg.INTERFERENCE_LOAD_FACTOR = 0) (rx_pos : ℝ × ℝ)
    (ints : List UserEquipment) (g : RNG) :
    (D2DEnvironment.total_interference_watts cfg rx_pos ints g).1 = 0 ∧
    (D2DEnvironmentPaper.total_interference_watts cfg rx_pos ints g).1 = 0 :=
  ⟨tiw_rho_zero cfg h rx_pos ints g, tiw_paper_rho_zero cfg h rx_pos ints g⟩

theorem C8_witness :
    rhoZeroConfig.INTERFERENCE_LOAD_FACTOR = 0 ∧
    (D2DEnvironment.total_interference_watts rhoZeroConfig (0, 0) [ueZero] gZero).1 = 0 ∧
    (D2DEnvironmentPaper.total_interference_watts rhoZeroConfig (0, 0) [ueZero] gZero).1 = 0 :=
  ⟨rfl, (C8_interference_exactly_zero rhoZeroConfig rfl (0, 0) [ueZero] gZero).1,
    (C8_interference_exactly_zero rhoZeroConfig rfl (0, 0) [ueZero] gZero).2⟩

/-- C10: with INTERFERENCE_LOAD_FACTOR = 0 the aggregate interference is 0
watts in every step, so the interference_dbm record field is computed as
10*log10(0 * 1000), whose argument is not positive; the emitted field is
therefore the non-finite marker (none in the finiteness model of
dbm_of_watts) rather than a finite dBm number — in both variants. -/
theorem C10_interference_dbm_nonfinite (cfg : Config)
    (h : cfg.INTERFERENCE_LOAD_FACTOR = 0) (e : D2DEnv) (g : RNG) :
    (D2DEnvironment.step cfg e g).1.interference_dbm = dbm_of_watts 0 ∧
    (D2DEnvironment.step cfg e g).1.interference_dbm = none ∧
    (D2DEnvironmentPaper.step cfg e g).1.interference_dbm = dbm_of_watts 0 ∧
    (D2DEnvironmentPaper.step cfg e g).1.interference_dbm = none ∧
    ¬ (0 : ℝ) < 0 * 1000 := by
  have hz : dbm_of_watts 0 = none := by
    unfold dbm_of_watts
    norm_num
  refine ⟨?_, ?_, ?_, ?_, by norm_num⟩ <;>
    simp only [D2DEnvironment.step, D2DEnvironment.computeRecord,
      D2DEnvironmentPaper.step, D2DEnvironmentPaper.computeRecord,
      tiw_rho_zero cfg h, tiw_paper_rho_zero cfg h, hz]

theorem C10_witness :
    rhoZeroConfig.INTERFERENCE_LOAD_FACTOR = 0 ∧
    (D2DEnvironment.step rhoZeroConfig envZero gZero).1.interference_dbm = none ∧
    (D2DEnvironmentPaper.step rhoZeroConfig envZero gZero).1.interference_dbm = none :=
  ⟨rfl, (C10_interference_dbm_nonfinite rhoZeroConfig rfl envZero gZero).2.1,
    (C10_interference_dbm_nonfinite rhoZeroConfig rfl envZero gZero).2.2.2.1⟩

/-- C5: in every step() call, of either variant, all entities move before
any channel quantity is computed.  Formally: step is exactly the
computation block applied to the movement block's result; the environment
emitted by step carries the post-movement entities; the record's position
fields and link distances are those of the post-movement entities; and any
two calls whose movement blocks produce the same post-movement state and
stream emit identical records — SINR and throughput are functions of the
post-movement positions of that same step. -/
theorem C5_movement_precedes_channel (cfg : Config) :
    (∀ (e : D2DEnv) (g : RNG),
      D2DEnvironment.step cfg e g =
        D2DEnvironment.computeRecord cfg (D2DEnvironment.movePhase cfg e g).1
          (D2DEnvironment.movePhase cfg e g).2 ∧
      (D2DEnvironment.step cfg e g).2.1 = (D2DEnvironment.movePhase cfg e g).1 ∧
      (D2DEnvironment.step cfg e g).1.tx_pos_x =
        (D2DEnvironment.step cfg e g).2.1.d2d_tx.position.1 ∧
      (D2DEnvironment.step cfg e g).1.tx_pos_y =
        (D2DEnvironment.step cfg e g).2.1.d2d_tx.position.2 ∧
      (D2DEnvironment.step cfg e g).1.rx_pos_x =
        (D2DEnvironment.step cfg e g).2.1.d2d_rx.position.1 ∧
      (D2DEnvironment.step cfg e g).1.rx_pos_y =
        (D2DEnvironment.step cfg e g).2.1.d2d_rx.position.2 ∧
      (D2DEnvironment.step cfg e g).1.distance_tx_rx =
        dist2 (D2DEnvironment.step cfg e g).2.1.d2d_tx.position
          (D2DEnvironment.step cfg e g).2.1.d2d_rx.position ∧
      (D2DEnvironment.step cfg e g).1.distance_bs_rx =
        dist2 (D2DEnvironment.step cfg e g).2.1.bs.position
          (D2DEnvironment.step cfg e g).2.1.d2d_rx.position) ∧
    (∀ (e1 : D2DEnv) (g1 : RNG) (e2 : D2DEnv) (g2 : RNG),
      D2DEnvironment.movePhase cfg e1 g1 = D2DEnvironment.movePhase cfg e2 g2 →
      D2DEnvironment.step cfg e1 g1 = D2DEnvironment.step cfg e2 g2) ∧
    (∀ (e : D2DEnv) (g : RNG),
      D2DEnvironmentPaper.step cfg e g =
        D2DEnvironmentPaper.computeRecord cfg (D2DEnvironmentPaper.movePhase cfg e g).1
          (D2DEnvironmentPaper.movePhase cfg e g).2 ∧
      (D2DEnvironmentPaper.step cfg e g).2.1 = (D2DEnvironmentPaper.movePhase cfg e g).1 ∧
      (D2DEnvironmentPaper.step cfg e g).1.tx_pos_x =
        (D2DEnvironmentPaper.step cfg e g).2.1.d2d_tx.position.1 ∧
      (D2DEnvironmentPaper.step cfg e g).1.tx_pos_y =
        (D2DEnvironmentPaper.step cfg e g).2.1.d2d_tx.position.2 ∧
      (D2DEnvironmentPaper.step cfg e g).1.rx_pos_x =
        (D2DEnvironmentPaper.step cfg e g).2.1.d2d_rx.position.1 ∧
      (D2DEnvironmentPaper.step cfg e g).1.rx_pos_y =
        (D2DEnvironmentPaper.step cfg e g).2.1.d2d_rx.position.2 ∧
      (D2DEnvironmentPaper.step cfg e g).1.distance_tx_rx =
        dist2 (D2DEnvironmentPaper.step cfg e g).2.1.d2d_tx.position
          (D2DEnvironmentPaper.step cfg e g).2.1.d2d_rx.position ∧
      (D2DEnvironmentPaper.step cfg e g).1.distance_bs_rx =
        dist2 (D2DEnvironmentPaper.step cfg e g).2.1.bs.position
          (D2DEnvironmentPaper.step cfg e g).2.1.d2d_rx.position) ∧
    (∀ (e1 : D2DEnv) (g1 : RNG) (e2 : D2DEnv) (g2 : RNG),
      D2DEnvironmentPaper.movePhase cfg e1 g1 = D2DEnvironmentPaper.movePhase cfg e2 g2 →
      D2DEnvironmentPaper.step cfg e1 g1 = D2DEnvironmentPaper.step cfg e2 g2) := by
  refine ⟨fun e g => ⟨rfl, rfl, rfl, rfl, rfl, rfl, rfl, rfl⟩,
    fun e1 g1 e2 g2 h => ?_,
    fun e g => ⟨rfl, rfl, rfl, rfl, rfl, rfl, rfl, rfl⟩,
    fun e1 g1 e2 g2 h => ?_⟩
  · simp only [D2DEnvironment.step, h]
  · simp only [D2DEnvironmentPaper.step, h]

theorem C5_witness :
    (D2DEnvironment.step SimulationConfig envZero gZero =
      D2DEnvironment.computeRecord SimulationConfig
        (D2DEnvironment.movePhase SimulationConfig envZero gZero).1
        (D2DEnvironment.movePhase SimulationConfig envZero gZero).2) ∧
    (D2DEnvironment.step SimulationConfig envZero gZero).1.distance_tx_rx =
      dist2 (D2DEnvironment.step SimulationConfig envZero gZero).2.1.d2d_tx.position
        (D2DEnvironment.step SimulationConfig envZero gZero).2.1.d2d_rx.position ∧
    D2DEnvironmentPaper.step PaperConfig envZero gZero =
      D2DEnvironmentPaper.step PaperConfig envZero gZero :=
  ⟨((C5_movement_precedes_channel SimulationConfig).1 envZero gZero).1,
   ((C5_movement_precedes_channel SimulationConfig).1 envZero gZero).2.2.2.2.2.2.1,
   (C5_movement_precedes_channel PaperConfig).2.2.2 envZero gZero envZero gZero rfl⟩

/-- Helper: a uniform(a, b) draw lies in [a, b] when a ≤ b. -/
theorem RNG.uniform_mem (a b : ℝ) (g : RNG) (hab : a ≤ b) :
    a ≤ (RNG.uniform a b g).1 ∧ (RNG.uniform a b g).1 ≤ b := by
  simp only [RNG.uniform, RNG.rand]
  constructor
  · nlinarith [Int.fract_nonneg (g.uStream g.uIdx), Int.fract_lt_one (g.uStream g.uIdx)]
  · nlinarith [Int.fract_nonneg (g.uStream g.uIdx), Int.fract_lt_one (g.uStream g.uIdx)]

/-- Helper: the distance from a point to the point offset by polar
coordinates (r, angle) is exactly r when r is nonnegative. -/
theorem dist2_offset_polar (p : ℝ × ℝ) (r a : ℝ) (hr : 0 ≤ r) :
    dist2 p (p.1 + r * Real.cos a, p.2 + r * Real.sin a) = r := by
  unfold dist2
  have hsq : (p.1 - (p.1 + r * Real.cos a)) ^ 2 + (p.2 - (p.2 + r * Real.sin a)) ^ 2
      = r ^ 2 := by
    have hs := Real.sin_sq_add_cos_sq a
    linear_combination r ^ 2 * hs
  rw [hsq, Real.sqrt_sq hr]

/-- C4: after every proposed-configuration reset() the Tx-Rx distance lies
in [10 m, D2D_MAX_DIST_M] (the receiver sits at the drawn uniformly random
bearing and radius from the transmitter); the paper-configuration reset()
instead re-draws the receiver as an independent uniform point in the cell
and enforces no maximum-distance constraint — exhibited by a stream on
which the resulting Tx-Rx distance is 900 m, exceeding D2D_MAX_DIST_M. -/
theorem C4_reset_receiver_placement :
    (∀ (e : D2DEnv) (g : RNG),
      10 ≤ dist2 ((D2DEnvironment.reset SimulationConfig e g).1.d2d_tx.position)
        ((D2DEnvironment.reset SimulationConfig e g).1.d2d_rx.position) ∧
      dist2 ((D2DEnvironment.reset SimulationConfig e g).1.d2d_tx.position)
        ((D2DEnvironment.reset SimulationConfig e g).1.d2d_rx.position) ≤
        SimulationConfig.D2D_MAX_DIST_M) ∧
    PaperConfig.D2D_MAX_DIST_M <
      dist2 ((D2DEnvironmentPaper.reset PaperConfig envZero gC4).1.d2d_tx.position)
        ((D2DEnvironmentPaper.reset PaperConfig envZero gC4).1.d2d_rx.position) := by
  constructor
  · intro e g
    simp only [D2DEnvironment.reset]
    obtain ⟨hlo, hhi⟩ := RNG.uniform_mem 10 SimulationConfig.D2D_MAX_DIST_M
      (RNG.uniform 0 (2 * Real.pi)
        (UserEquipment.init SimulationConfig "Target_Rx" SpeedType.mixed
          (UserEquipment.init SimulationConfig "Target_Tx" SpeedType.mixed g).2).2).2
      (by norm_num [SimulationConfig])
    rw [dist2_offset_polar _ _ _ (le_trans (by norm_num) hlo)]
    exact ⟨hlo, hhi⟩
  · have hf81 : Int.fract ((81 : ℝ) / 100) = 81 / 100 :=
      Int.fract_eq_self.mpr ⟨by norm_num, by norm_num⟩
    have hf5 : Int.fract ((1 : ℝ) / 2) = 1 / 2 :=
      Int.fract_eq_self.mpr ⟨by norm_num, by norm_num⟩
    have hs : Real.sqrt ((81 : ℝ) / 100) = 9 / 10 := by
      rw [show ((81 : ℝ) / 100) = (9 / 10) ^ 2 by norm_num, Real.sqrt_sq (by norm_num)]
    have hcos : Real.cos (2 * Real.pi * ((1 : ℝ) / 2)) = -1 := by
      rw [show 2 * Real.pi * ((1 : ℝ) / 2) = Real.pi by ring, Real.cos_pi]
    have hsin : Real.sin (2 * Real.pi * ((1 : ℝ) / 2)) = 0 := by
      rw [show 2 * Real.pi * ((1 : ℝ) / 2) = Real.pi by ring, Real.sin_pi]
    have htx : (D2DEnvironmentPaper.reset PaperConfig envZero gC4).1.d2d_tx.position
        = (-450, 0) := by
      simp only [D2DEnvironmentPaper.reset, UserEquipmentPaper.init,
        UserEquipment.get_random_point_in_cell, RNG.rand, gC4]
      norm_num [hf81, hf5, hs, hcos, hsin, PaperConfig]
    have hrx : (D2DEnvironmentPaper.reset PaperConfig envZero gC4).1.d2d_rx.position
        = (450, 0) := by
      simp only [D2DEnvironmentPaper.reset, UserEquipmentPaper.init,
        UserEquipment.get_random_point_in_cell, RNG.rand, gC4]
      norm_num [hf81, Int.fract_zero, hs, Real.cos_zero, Real.sin_zero, PaperConfig]
    have hsq : Real.sqrt (810000 : ℝ) = 900 := by
      rw [show (810000 : ℝ) = 900 ^ 2 by norm_num, Real.sqrt_sq (by norm_num)]
    rw [htx, hrx]
    simp only [dist2]
    norm_num [PaperConfig, hsq]

/-- Helper: distance from the origin of a point given in polar form. -/
theorem distFromOrigin_polar (r a : ℝ) (hr : 0 ≤ r) :
    distFromOrigin (r * Real.cos a, r * Real.sin a) = r := by
  unfold distFromOrigin
  have hsq : (r * Real.cos a) ^ 2 + (r * Real.sin a) ^ 2 = r ^ 2 := by
    have hs := Real.sin_sq_add_cos_sq a
    linear_combination r ^ 2 * hs
  rw [hsq, Real.sqrt_sq hr]

/-- Helper: comparing a distance from the origin with a nonnegative bound
is the same as comparing squared coordinates with the squared bound. -/
theorem distFromOrigin_le_iff (C : ℝ) (hC : 0 ≤ C) (p : ℝ × ℝ) :
    distFromOrigin p ≤ C ↔ p.1 ^ 2 + p.2 ^ 2 ≤ C ^ 2 := by
  unfold distFromOrigin
  constructor
  · intro h
    have h0 : (0 : ℝ) ≤ p.1 ^ 2 + p.2 ^ 2 := by positivity
    have hs := Real.sq_sqrt h0
    nlinarith [Real.sqrt_nonneg (p.1 ^ 2 + p.2 ^ 2)]
  · intro h
    calc Real.sqrt (p.1 ^ 2 + p.2 ^ 2) ≤ Real.sqrt (C ^ 2) := Real.sqrt_le_sqrt h
      _ = C := Real.sqrt_sq hC

/-- Helper: triangle inequality for the distance from the origin under a
componentwise offset. -/
theorem distFromOrigin_add_le (p : ℝ × ℝ) (x y : ℝ) :
    distFromOrigin (p.1 + x, p.2 + y) ≤ distFromOrigin p + distFromOrigin (x, y) := by
  unfold distFromOrigin
  have hA := Real.sq_sqrt (show (0 : ℝ) ≤ p.1 ^ 2 + p.2 ^ 2 by positivity)
  have hB := Real.sq_sqrt (show (0 : ℝ) ≤ x ^ 2 + y ^ 2 by positivity)
  have hcs : (p.1 * x + p.2 * y) ^ 2 ≤ (p.1 ^ 2 + p.2 ^ 2) * (x ^ 2 + y ^ 2) := by
    nlinarith [sq_nonneg (p.1 * y - p.2 * x)]
  have hAB : p.1 * x + p.2 * y ≤
      Real.sqrt (p.1 ^ 2 + p.2 ^ 2) * Real.sqrt (x ^ 2 + y ^ 2) := by
    calc p.1 * x + p.2 * y ≤ |p.1 * x + p.2 * y| := le_abs_self _
      _ = Real.sqrt ((p.1 * x + p.2 * y) ^ 2) := (Real.sqrt_sq_eq_abs _).symm
      _ ≤ Real.sqrt ((p.1 ^ 2 + p.2 ^ 2) * (x ^ 2 + y ^ 2)) := Real.sqrt_le_sqrt hcs
      _ = Real.sqrt (p.1 ^ 2 + p.2 ^ 2) * Real.sqrt (x ^ 2 + y ^ 2) :=
        Real.sqrt_mul (by positivity) _
  calc Real.sqrt ((p.1 + x) ^ 2 + (p.2 + y) ^ 2)
      ≤ Real.sqrt ((Real.sqrt (p.1 ^ 2 + p.2 ^ 2) + Real.sqrt (x ^ 2 + y ^ 2)) ^ 2) :=
        Real.sqrt_le_sqrt (by nlinarith)
    _ = Real.sqrt (p.1 ^ 2 + p.2 ^ 2) + Real.sqrt (x ^ 2 + y ^ 2) :=
        Real.sqrt_sq (by positivity)

/-- Helper: a point on the segment from a to b, both within a squared
bound, stays within that bound (convexity of the disc). -/
theorem seg_sq_le (px py qx qy t C : ℝ) (hp : px ^ 2 + py ^ 2 ≤ C)
    (hq : qx ^ 2 + qy ^ 2 ≤ C) (ht0 : 0 ≤ t) (ht1 : t ≤ 1) :
    (px + t * (qx - px)) ^ 2 + (py + t * (qy - py)) ^ 2 ≤ C := by
  nlinarith [mul_nonneg (mul_nonneg ht0 (sub_nonneg.mpr ht1))
      (add_nonneg (sq_nonneg (qx - px)) (sq_nonneg (qy - py))),
    mul_nonneg ht0 (sub_nonneg.mpr ht1), sq_nonneg t, sq_nonneg (1 - t)]

/-- Helper: a fresh uniform point in the cell lies within the cell
radius. -/
theorem point_in_cell (g : RNG) :
    distFromOrigin (UserEquipment.get_random_point_in_cell SimulationConfig g).1 ≤
      SimulationConfig.CELL_RADIUS_M := by
  simp only [UserEquipment.get_random_point_in_cell, RNG.rand]
  have hu1 : Int.fract (g.uStream g.uIdx) ≤ 1 := le_of_lt (Int.fract_lt_one _)
  have hs0 : 0 ≤ Real.sqrt (Int.fract (g.uStream g.uIdx)) := Real.sqrt_nonneg _
  have hs1 : Real.sqrt (Int.fract (g.uStream g.uIdx)) ≤ 1 := Real.sqrt_le_one.mpr hu1
  have hRnn : (0 : ℝ) ≤ SimulationConfig.CELL_RADIUS_M := by norm_num [SimulationConfig]
  have hr0 : 0 ≤ SimulationConfig.CELL_RADIUS_M * Real.sqrt (Int.fract (g.uStream g.uIdx)) :=
    mul_nonneg hRnn hs0
  rw [distFromOrigin_polar _ _ hr0]
  calc SimulationConfig.CELL_RADIUS_M * Real.sqrt (Int.fract (g.uStream g.uIdx))
      ≤ SimulationConfig.CELL_RADIUS_M * 1 := mul_le_mul_of_nonneg_left hs1 hRnn
    _ = SimulationConfig.CELL_RADIUS_M := mul_one _

/-- Helper: a freshly constructed UE satisfies the per-UE invariant. -/
theorem init_UEInv (did : String) (st : SpeedType) (g : RNG) :
    UEInv SimulationConfig.CELL_RADIUS_M (UserEquipment.init SimulationConfig did st g).1 := by
  cases st with
  | pedestrian =>
    refine ⟨point_in_cell g, point_in_cell _, ?_⟩
    have h := RNG.uniform_mem 1 3 (UserEquipment.get_random_point_in_cell SimulationConfig
      (UserEquipment.get_random_point_in_cell SimulationConfig g).2).2 (by norm_num)
    show (0 : ℝ) ≤ (RNG.uniform 1 3 _).1
    linarith [h.1]
  | vehicle =>
    refine ⟨point_in_cell g, point_in_cell _, ?_⟩
    have h := RNG.uniform_mem 3 10 (UserEquipment.get_random_point_in_cell SimulationConfig
      (UserEquipment.get_random_point_in_cell SimulationConfig g).2).2 (by norm_num)
    show (0 : ℝ) ≤ (RNG.uniform 3 10 _).1
    linarith [h.1]
  | mixed =>
    refine ⟨point_in_cell g, point_in_cell _, ?_⟩
    have h := RNG.uniform_mem SimulationConfig.SPEED_MIN SimulationConfig.SPEED_MAX
      (UserEquipment.get_random_point_in_cell SimulationConfig
        (UserEquipment.get_random_point_in_cell SimulationConfig g).2).2
      (by norm_num [SimulationConfig])
    show (0 : ℝ) ≤ (RNG.uniform SimulationConfig.SPEED_MIN SimulationConfig.SPEED_MAX _).1
    have hmin : (0 : ℝ) ≤ SimulationConfig.SPEED_MIN := by norm_num [SimulationConfig]
    linarith [h.1]

/-- Helper: the moving-case body preserves the per-UE invariant for any
radius bound at least the cell radius. -/
theorem moveBody_preserves (ue : UserEquipment) (C : ℝ)
    (hC : SimulationConfig.CELL_RADIUS_M ≤ C) (h : UEInv C ue) :
    UEInv C (UserEquipment.moveBody SimulationConfig ue) := by
  obtain ⟨hpos, hdest, hspeed⟩ := h
  have hR : (0 : ℝ) ≤ SimulationConfig.CELL_RADIUS_M := by norm_num [SimulationConfig]
  have hC0 : (0 : ℝ) ≤ C := le_trans hR hC
  simp only [UserEquipment.moveBody]
  split_ifs with hsnap
  · exact ⟨le_trans hdest hC, hdest, hspeed⟩
  · refine ⟨?_, hdest, hspeed⟩
    have hlt : ue.speed * SimulationConfig.TIME_STEP_S <
        Real.sqrt ((ue.destination.1 - ue.position.1) ^ 2 +
          (ue.destination.2 - ue.position.2) ^ 2) := not_le.1 hsnap
    have hdt : SimulationConfig.TIME_STEP_S = 1 := rfl
    have hstep0 : 0 ≤ ue.speed * SimulationConfig.TIME_STEP_S := by
      rw [hdt, mul_one]; exact hspeed
    have hdist0 : 0 < Real.sqrt ((ue.destination.1 - ue.position.1) ^ 2 +
        (ue.destination.2 - ue.position.2) ^ 2) := lt_of_le_of_lt hstep0 hlt
    rw [distFromOrigin_le_iff C hC0]
    have hp2 : ue.position.1 ^ 2 + ue.position.2 ^ 2 ≤ C ^ 2 :=
      (distFromOrigin_le_iff C hC0 ue.position).1 hpos
    have hq2 : ue.destination.1 ^ 2 + ue.destination.2 ^ 2 ≤ C ^ 2 := by
      have h5 := (distFromOrigin_le_iff _ hR ue.destination).1 hdest
      nlinarith
    have hseg := seg_sq_le ue.position.1 ue.position.2 ue.destination.1 ue.destination.2
      (ue.speed * SimulationConfig.TIME_STEP_S /
        Real.sqrt ((ue.destination.1 - ue.position.1) ^ 2 +
          (ue.destination.2 - ue.position.2) ^ 2)) (C ^ 2) hp2 hq2
      (div_nonneg hstep0 (le_of_lt hdist0)) (le_of_lt ((div_lt_one hdist0).mpr hlt))
    calc (ue.position.1 + (ue.destination.1 - ue.position.1) /
            Real.sqrt ((ue.destination.1 - ue.position.1) ^ 2 +
              (ue.destination.2 - ue.position.2) ^ 2) *
            (ue.speed * SimulationConfig.TIME_STEP_S)) ^ 2 +
          (ue.position.2 + (ue.destination.2 - ue.position.2) /
            Real.sqrt ((ue.destination.1 - ue.position.1) ^ 2 +
              (ue.destination.2 - ue.position.2) ^ 2) *
            (ue.speed * SimulationConfig.TIME_STEP_S)) ^ 2
        = (ue.position.1 + ue.speed * SimulationConfig.TIME_STEP_S /
            Real.sqrt ((ue.destination.1 - ue.position.1) ^ 2 +
              (ue.destination.2 - ue.position.2) ^ 2) *
            (ue.destination.1 - ue.position.1)) ^ 2 +
          (ue.position.2 + ue.speed * SimulationConfig.TIME_STEP_S /
            Real.sqrt ((ue.destination.1 - ue.position.1) ^ 2 +
              (ue.destination.2 - ue.position.2) ^ 2) *
            (ue.destination.2 - ue.position.2)) ^ 2 := by ring
      _ ≤ C ^ 2 := hseg

/-- Helper: one move() call preserves the per-UE invariant. -/
theorem move_preserves (ue : UserEquipment) (g : RNG) (C : ℝ)
    (hC : SimulationConfig.CELL_RADIUS_M ≤ C) (h : UEInv C ue) :
    UEInv C (UserEquipment.move SimulationConfig ue g).1 := by
  obtain ⟨hpos, hdest, hspeed⟩ := h
  simp only [UserEquipment.move]
  split_ifs with hp hq
  · exact moveBody_preserves _ C hC ⟨hpos, point_in_cell _, hspeed⟩
  · exact ⟨hpos, hdest, hspeed⟩
  · exact moveBody_preserves _ C hC ⟨hpos, hdest, hspeed⟩

/-- Helper: the interferer move loop preserves the per-UE invariant. -/
theorem moveAll_UEInv (l : List UserEquipment) (g : RNG)
    (h : ∀ ue ∈ l, UEInv SimulationConfig.CELL_RADIUS_M ue) :
    ∀ ue ∈ (D2DEnvironment.moveAll SimulationConfig l g).1,
      UEInv SimulationConfig.CELL_RADIUS_M ue := by
  induction l generalizing g with
  | nil =>
    intro ue hue
    simp [D2DEnvironment.moveAll] at hue
  | cons x rest ih =>
    intro ue hue
    simp only [D2DEnvironment.moveAll, List.mem_cons] at hue
    rcases hue with hx | hr
    · exact hx ▸ move_preserves x g _ le_rfl (h x (List.mem_cons_self x rest))
    · exact ih _ (fun u hu => h u (List.mem_cons_of_mem x hu)) ue hr

/-- Helper: every constructed interferer satisfies the per-UE invariant. -/
theorem mkInterferers_UEInv (i n : Nat) (g : RNG) :
    ∀ ue ∈ (D2DEnvironment.mkInterferers SimulationConfig i n g).1,
      UEInv SimulationConfig.CELL_RADIUS_M ue := by
  induction n generalizing i g with
  | zero =>
    intro ue hue
    simp [D2DEnvironment.mkInterferers] at hue
  | succ n ih =>
    intro ue hue
    simp only [D2DEnvironment.mkInterferers, List.mem_cons] at hue
    rcases hue with hx | hr
    · exact hx ▸ init_UEInv _ _ _
    · exact ih _ _ ue hr

/-- Helper: reset() establishes the amended environment invariant. -/
theorem reset_establishes_inv (e : D2DEnv) (g : RNG)
    (hbs : distFromOrigin e.bs.position ≤ SimulationConfig.CELL_RADIUS_M) :
    EnvInvAmended (D2DEnvironment.reset SimulationConfig e g).1 := by
  simp only [D2DEnvironment.reset, EnvInvAmended]
  set tx := UserEquipment.init SimulationConfig "Target_Tx" SpeedType.mixed g with htxd
  set rx0 := UserEquipment.init SimulationConfig "Target_Rx" SpeedType.mixed tx.2 with hrx0d
  set a := RNG.uniform 0 (2 * Real.pi) rx0.2 with had
  set r := RNG.uniform 10 SimulationConfig.D2D_MAX_DIST_M a.2 with hrd
  refine ⟨hbs, init_UEInv _ _ _, ⟨?_, ?_, ?_⟩, ?_⟩
  · obtain ⟨htxpos, -, -⟩ := init_UEInv "Target_Tx" SpeedType.mixed g
    obtain ⟨hrlo, hrhi⟩ := RNG.uniform_mem 10 SimulationConfig.D2D_MAX_DIST_M a.2
      (by norm_num [SimulationConfig])
    have hr0 : (0 : ℝ) ≤ r.1 := le_trans (by norm_num) hrlo
    refine le_trans (distFromOrigin_add_le tx.1.position
      (r.1 * Real.cos a.1) (r.1 * Real.sin a.1)) ?_
    rw [distFromOrigin_polar r.1 a.1 hr0]
    exact add_le_add htxpos hrhi
  · exact (init_UEInv "Target_Rx" SpeedType.mixed tx.2).2.1
  · exact (init_UEInv "Target_Rx" SpeedType.mixed tx.2).2.2
  · intro ue hue
    exact mkInterferers_UEInv 0 _ _ ue hue

/-- Helper: the movement phase preserves the amended invariant. -/
theorem movePhase_preserves_inv (e : D2DEnv) (g : RNG) (h : EnvInvAmended e) :
    EnvInvAmended (D2DEnvironment.movePhase SimulationConfig e g).1 := by
  obtain ⟨hbs, htx, hrx, hint⟩ := h
  have hR : SimulationConfig.CELL_RADIUS_M ≤
      SimulationConfig.CELL_RADIUS_M + SimulationConfig.D2D_MAX_DIST_M := by
    norm_num [SimulationConfig]
  exact ⟨hbs, move_preserves _ _ _ le_rfl htx, move_preserves _ _ _ hR hrx,
    moveAll_UEInv _ _ hint⟩

/-- C2 counterexample: the claimed invariant that every entity stays
within CELL_RADIUS_M of the origin fails right after reset(): on this
concrete stream the transmitter spawns at (495, 0) and the receiver
override adds a 30 m offset at bearing 0, placing the receiver at
(525, 0), at distance 525 > 500 from the origin. -/
theorem C2_counterexample :
    SimulationConfig.CELL_RADIUS_M <
      distFromOrigin
        ((D2DEnvironment.reset SimulationConfig envZero gC2).1.d2d_rx.position) := by
  have hf : Int.fract ((9801 : ℝ) / 10000) = 9801 / 10000 :=
    Int.fract_eq_self.mpr ⟨by norm_num, by norm_num⟩
  have hf5 : Int.fract ((1 : ℝ) / 2) = 1 / 2 :=
    Int.fract_eq_self.mpr ⟨by norm_num, by norm_num⟩
  have hs : Real.sqrt ((9801 : ℝ) / 10000) = 99 / 100 := by
    rw [show ((9801 : ℝ) / 10000) = (99 / 100) ^ 2 by norm_num, Real.sqrt_sq (by norm_num)]
  have hrx : (D2DEnvironment.reset SimulationConfig envZero gC2).1.d2d_rx.position
      = (525, 0) := by
    simp only [D2DEnvironment.reset, UserEquipment.init,
      UserEquipment.get_random_point_in_cell, RNG.uniform, RNG.rand, gC2]
    norm_num [hf, hf5, hs, Int.fract_zero, Real.cos_zero, Real.sin_zero, SimulationConfig]
  have hsq : Real.sqrt (275625 : ℝ) = 525 := by
    rw [show (275625 : ℝ) = 525 ^ 2 by norm_num, Real.sqrt_sq (by norm_num)]
  rw [hrx]
  simp only [distFromOrigin]
  norm_num [SimulationConfig, hsq]

/-- C2 amended: after reset() and across every step() of the proposed
simulator, the base station, the D2D transmitter and every interferer stay
within CELL_RADIUS_M of the origin, and the D2D receiver stays within
CELL_RADIUS_M + D2D_MAX_DIST_M (its reset override can place it up to
D2D_MAX_DIST_M outside the cell, as the counterexample shows); all
waypoint destinations stay within CELL_RADIUS_M. -/
theorem C2_amended_position_invariant :
    (∀ (e : D2DEnv) (g : RNG),
      distFromOrigin e.bs.position ≤ SimulationConfig.CELL_RADIUS_M →
      EnvInvAmended (D2DEnvironment.reset SimulationConfig e g).1) ∧
    (∀ (e : D2DEnv) (g : RNG),
      EnvInvAmended e →
      EnvInvAmended (D2DEnvironment.step SimulationConfig e g).2.1) :=
  ⟨fun e g hbs => reset_establishes_inv e g hbs,
   fun e g h => movePhase_preserves_inv e g h⟩

/-- Helper: the trivial environment satisfies the amended invariant. -/
theorem envZero_inv : EnvInvAmended envZero := by
  have h25 : Real.sqrt (25 : ℝ) = 5 := by
    rw [show (25 : ℝ) = 5 ^ 2 by norm_num, Real.sqrt_sq (by norm_num)]
  refine ⟨?_, ⟨?_, ?_, ?_⟩, ⟨?_, ?_, ?_⟩, ?_⟩ <;>
    simp [envZero, ueZero, distFromOrigin, SimulationConfig, h25, Real.sqrt_zero] <;>
    norm_num [h25]

theorem C2_amended_witness :
    distFromOrigin envZero.bs.position ≤ SimulationConfig.CELL_RADIUS_M ∧
    EnvInvAmended envZero ∧
    EnvInvAmended (D2DEnvironment.reset SimulationConfig envZero gZero).1 ∧
    EnvInvAmended (D2DEnvironment.step SimulationConfig envZero gZero).2.1 :=
  ⟨envZero_inv.1, envZero_inv,
   C2_amended_position_invariant.1 envZero gZero envZero_inv.1,
   C2_amended_position_invariant.2 envZero gZero envZero_inv⟩

end
